import Mathlib

/-
Verification development for the autonomous content generation pipeline of the
lark-labs-ai-influencer repository. The JavaScript modules
backend/src/content/generator.js, backend/src/ai/character.js,
backend/src/ai/knowledge-base.js and backend/src/services/scheduler.js are
shallowly embedded: database rows become Lean structures, the database becomes an
explicit list threaded through the operations, and every external call (the
generative text service, the voice service, research queries, the persistence
layer) is represented by an explicit outcome value supplied through an
environment record, exactly mirroring the try/catch structure of the source.
JSON extraction from free-form model text is modelled as a tagged decode result
(parsed value / no JSON match / thrown), following the structure of the
call sites, which regex-match a JSON object out of the completion and fall back
on failure. Numeric scores carried by model JSON are modelled as Int (every
threshold in the source is integral). Log statements, timing fields and prompt
strings are not modelled: they never influence control flow.
-/

deriving instance DecidableEq for Except

namespace Lark

/-! ## Knowledge base (backend/src/ai/knowledge-base.js) -/

/-- Row of the hvac_knowledge table. The columns source_type, source_url and
verification_date are elided: no modelled operation branches on them. createdAt
is an abstract timestamp used by the search ORDER BY clause. -/
structure KnowledgeEntry where
  id : Nat
  topic : String
  category : String
  subcategory : String
  content : String
  canadian_specific : Bool
  safety_related : Bool
  difficulty_level : Nat
  verified : Bool
  tags : List String
  keywords : List String
  createdAt : Nat
deriving DecidableEq

/-- Check that the character list needle occurs inside hay (contiguously). -/
def charsInfix : List Char → List Char → Bool
  | needle, [] => needle.isEmpty
  | needle, c :: t => needle.isPrefixOf (c :: t) || charsInfix needle t

/-- Model of the SQL condition hay ILIKE the pattern percent-pat-percent:
case-insensitive substring containment. -/
def ilikeContains (hay pat : String) : Bool :=
  charsInfix (pat.toLower.toList) (hay.toLower.toList)

/-- Parameters of searchKnowledge, with the defaults of the source destructuring. -/
structure SearchParams where
  query : String := ""
  category : Option String := none
  subcategory : Option String := none
  canadian_specific : Option Bool := none
  safety_related : Option Bool := none
  difficulty_level : Option Nat := none
  verified_only : Bool := true
  limit : Nat := 20
deriving DecidableEq

/-- An optional filter matches when absent or equal to the value, as in the
dynamically assembled WHERE clause of searchKnowledge. -/
def optFilter {α : Type} [BEq α] (f : Option α) (v : α) : Bool :=
  match f with
  | none => true
  | some x => v == x

/-- The WHERE clause of searchKnowledge. When a nonempty query is given it must
occur in the topic or the content (ILIKE), or equal a keyword; note the source
compares the wildcard-wrapped parameter itself against keywords
(the condition percent-query-percent = ANY(keywords)), reproduced here verbatim. -/
def entryMatches (p : SearchParams) (e : KnowledgeEntry) : Bool :=
  let q := p.query.trim
  (q.isEmpty || (ilikeContains e.topic q || ilikeContains e.content q
      || e.keywords.contains ("%" ++ q ++ "%")))
  && optFilter p.category e.category
  && optFilter p.subcategory e.subcategory
  && optFilter p.canadian_specific e.canadian_specific
  && optFilter p.safety_related e.safety_related
  && optFilter p.difficulty_level e.difficulty_level
  && (!p.verified_only || e.verified)

/-- The ORDER BY of searchKnowledge: topic match first, then difficulty
ascending, then created_at descending. -/
def searchOrderLe (q : String) (a b : KnowledgeEntry) : Bool :=
  let ra : Nat := if ilikeContains a.topic q then 1 else 2
  let rb : Nat := if ilikeContains b.topic q then 1 else 2
  if ra ≠ rb then decide (ra < rb)
  else if a.difficulty_level ≠ b.difficulty_level then
    decide (a.difficulty_level < b.difficulty_level)
  else decide (b.createdAt ≤ a.createdAt)

/-- rankSearchResults: the generative service may return a ranking (a JSON array
of one-based entry numbers); the results are reordered accordingly and entries
the ranking missed are appended; a ranking of none models the call or parse
failing, which falls back to the original order. An index of 0 models a
non-positive JavaScript index, which selects nothing and marks nothing used. -/
def rankSearchResults (results : List KnowledgeEntry) (ranking : Option (List Nat)) :
    List KnowledgeEntry :=
  if results.isEmpty then results else
  match ranking with
  | none => results
  | some idxs =>
    let ranked := idxs.filterMap (fun i => if i = 0 then none else results.get? (i - 1))
    let used := idxs.filterMap (fun i => if i = 0 then none else some (i - 1))
    let missed := (results.enum.filter (fun p => !(used.contains p.1))).map (fun p => p.2)
    ranked ++ missed

/-- searchKnowledge over an explicit table of rows: filter, order, limit, and
(when a free-text query is present) the best-effort relevance re-ranking. -/
def searchKnowledge (db : List KnowledgeEntry) (p : SearchParams)
    (ranking : Option (List Nat)) : List KnowledgeEntry :=
  let rows := ((db.filter (entryMatches p)).mergeSort (searchOrderLe p.query.trim)).take p.limit
  if p.query.trim.isEmpty then rows else rankSearchResults rows ranking

/-- Deduplication by id keeping the first occurrence, as done in
getKnowledgeForContent with findIndex over the combined result list. -/
def dedupById : List KnowledgeEntry → List KnowledgeEntry
  | [] => []
  | e :: rest => e :: dedupById (rest.filter (fun r => r.id ≠ e.id))
termination_by l => l.length
decreasing_by
  simp only [List.length_cons]
  exact Nat.lt_succ_of_le (List.length_filter_le _ _)

/-- The four bounded knowledge sets returned by getKnowledgeForContent. -/
structure KnowledgeContext where
  primary : List KnowledgeEntry
  safety : List KnowledgeEntry
  canadian_specific : List KnowledgeEntry
  supplementary : List KnowledgeEntry
deriving DecidableEq

/-- getKnowledgeForContent: up to three searchKnowledge calls (the safety search
is skipped for safety content), deduplication of the combined pool by id, and
the four slices of the source. Besides the context it returns the list of
search-parameter records actually used, in call order, so that the number of
search calls is part of the observable behaviour. rankings supplies the
re-ranking outcome consumed by each successive search call. -/
def getKnowledgeForContent (db : List KnowledgeEntry) (rankings : List (Option (List Nat)))
    (topic contentType : String) (difficultyLevel : Nat) :
    KnowledgeContext × List SearchParams :=
  let p1 : SearchParams := { query := topic, difficulty_level := some difficultyLevel,
                             verified_only := true, limit := 10 }
  let directResults := searchKnowledge db p1 (rankings.getD 0 none)
  let safetyPart :=
    if contentType != "safety" then
      let p2 : SearchParams := { query := topic, safety_related := some true,
                                 verified_only := true, limit := 5 }
      (searchKnowledge db p2 (rankings.getD 1 none), [p2])
    else ([], [])
  let p3 : SearchParams := { query := topic, canadian_specific := some true,
                             verified_only := true, limit := 5 }
  let canadianResults :=
    searchKnowledge db p3 (rankings.getD (if contentType != "safety" then 2 else 1) none)
  let uniqueResults := dedupById (directResults ++ safetyPart.1 ++ canadianResults)
  ({ primary := uniqueResults.take 5
   , safety := safetyPart.1.take 3
   , canadian_specific := canadianResults.take 3
   , supplementary := (uniqueResults.drop 5).take 5 },
   [p1] ++ safetyPart.2 ++ [p3])

/-- Parsed verification JSON. The per-criterion scores and notes of the full
response are elided: only accuracy_score and the verified flag are read by any
caller. requires_manual_review is carried for the fallback object. -/
structure Verification where
  accuracy_score : Int
  verified : Bool
  requires_manual_review : Bool
deriving DecidableEq

/-- Outcome of the verification call of verifyKnowledgeAccuracy: either a JSON
object was extracted and parsed from the completion, or the call threw or no
JSON object could be extracted (both land in the same catch). -/
inductive VerifyResponse where
  | parsed (v : Verification)
  | failed
deriving DecidableEq

/-- verifyKnowledgeAccuracy: return the parsed verification verbatim; on any
failure return the conservative manual-review fallback. -/
def verifyKnowledgeAccuracy : VerifyResponse → Verification
  | .parsed v => v
  | .failed => { accuracy_score := 70, verified := false, requires_manual_review := true }

/-- The categories table of the knowledge base constructor. -/
def validCategories : List String :=
  ["refrigeration", "heating_systems", "codes_standards", "electrical",
   "ventilation", "tools_equipment", "customer_service", "safety_procedures"]

/-- The canadian_relevant flag per category, from the constructor table. -/
def categoryCanadianRelevant (c : String) : Bool :=
  c == "refrigeration" || c == "heating_systems" || c == "codes_standards"
    || c == "ventilation" || c == "safety_procedures"

/-- Input record of addKnowledge with the defaults of the source destructuring. -/
structure KnowledgeData where
  topic : String
  category : String
  content : String
  canadian_specific : Bool := false
  safety_related : Bool := false
  difficulty_level : Nat := 2
deriving DecidableEq

/-- addKnowledge: validate the category, run verifyKnowledgeAccuracy on the
supplied call outcome, then persist an entry whose verified flag is the
comparison accuracy_score at least 85. The best-effort generative derivation of
subcategory, tags and keywords is supplied as arguments (it never affects the
verified flag); freshKId and createdAt stand for the serial id and the
created_at column the database assigns. -/
def addKnowledge (freshKId createdAt : Nat) (d : KnowledgeData) (resp : VerifyResponse)
    (subcategory : String) (tags keywords : List String) : Except String KnowledgeEntry :=
  if !(validCategories.contains d.category) then
    .error ("Invalid category: " ++ d.category)
  else
    let verification := verifyKnowledgeAccuracy resp
    .ok { id := freshKId
        , topic := d.topic
        , category := d.category
        , subcategory := subcategory
        , content := d.content
        , canadian_specific := d.canadian_specific || categoryCanadianRelevant d.category
        , safety_related := d.safety_related
        , difficulty_level := d.difficulty_level
        , verified := decide (85 ≤ verification.accuracy_score)
        , tags := tags
        , keywords := keywords
        , createdAt := createdAt }

/-- The per-entry re-verification step of handleKnowledgeMaintenance in
backend/src/services/scheduler.js: the entry row is updated with the verified
flag of the verification response itself (no accuracy-score comparison). -/
def maintenanceReverify (e : KnowledgeEntry) (resp : VerifyResponse) : KnowledgeEntry :=
  let verification := verifyKnowledgeAccuracy resp
  { e with verified := verification.verified }

/-! ## Character engine (backend/src/ai/character.js) -/

/-- Parsed consistency-evaluation JSON: the eight criterion scores and the
overall score, exactly the keys the rubric requests. -/
structure ConsScores where
  tone_empathy : Int
  safety_focus : Int
  teaching_style : Int
  language_use : Int
  technical_accuracy : Int
  brand_integration : Int
  character_consistency : Int
  authenticity : Int
  overall_score : Int
deriving DecidableEq

/-- Outcome of the consistency-evaluation call of evaluateConsistency:
a parsed JSON object, a completion with no JSON-shaped substring, or a throw
(the generative call failing, or JSON.parse throwing on the matched substring). -/
inductive ConsResponse where
  | parsed (s : ConsScores)
  | noJsonMatch
  | threw
deriving DecidableEq

/-- The module-wide consistency threshold of the character engine constructor. -/
def consistencyThreshold : Int := 95

/-- evaluateConsistency: the parsed overall_score verbatim, 75 when no JSON
object could be matched, 70 when the call or the parse threw. The rolling
update of personality_consistency_score on the active profile is a database
side effect that no modelled operation reads back and is elided. -/
def evaluateConsistency : ConsResponse → Int
  | .parsed sc => sc.overall_score
  | .noJsonMatch => 75
  | .threw => 70

/-- The mutable character profile fields reachable through settings updates.
Catchphrases, sign-offs and consistency metrics are elided: they are not in the
allow-list and no modelled operation updates them. Values are rationals since
the voice parameters are fractional. -/
structure CharacterProfile where
  empathy_level : ℚ
  technical_complexity : ℚ
  safety_focus : ℚ
  brand_integration : ℚ
  voice_stability : ℚ
  voice_clarity : ℚ
deriving DecidableEq

/-- The default profile created by createDefaultProfile. -/
def defaultProfile : CharacterProfile :=
  { empathy_level := 8
  , technical_complexity := 7
  , safety_focus := 10
  , brand_integration := 7
  , voice_stability := 0.85
  , voice_clarity := 0.9 }

/-- The allow-list of updateCharacterSettings. -/
def allowedCharacterUpdates : List String :=
  ["empathy_level", "technical_complexity", "safety_focus", "brand_integration",
   "voice_stability", "voice_clarity"]

/-- Apply one key-value update to the profile. Only allow-listed keys are ever
applied (the caller filters first); any other key leaves the profile unchanged. -/
def applyCharacterUpdate (p : CharacterProfile) (kv : String × ℚ) : CharacterProfile :=
  match kv.1 with
  | "empathy_level" => { p with empathy_level := kv.2 }
  | "technical_complexity" => { p with technical_complexity := kv.2 }
  | "safety_focus" => { p with safety_focus := kv.2 }
  | "brand_integration" => { p with brand_integration := kv.2 }
  | "voice_stability" => { p with voice_stability := kv.2 }
  | "voice_clarity" => { p with voice_clarity := kv.2 }
  | _ => p

/-- updateCharacterSettings: keep only allow-listed keys of the patch; if none
remain, throw; otherwise apply them in order and return the updated profile. -/
def updateCharacterSettings (p : CharacterProfile) (patch : List (String × ℚ)) :
    Except String CharacterProfile :=
  let validUpdates := patch.filter (fun kv => allowedCharacterUpdates.contains kv.1)
  if validUpdates.isEmpty then .error "No valid updates provided"
  else .ok (validUpdates.foldl applyCharacterUpdate p)

/-! ## Content generator (backend/src/content/generator.js) -/

/-- Row of the content_calendar table. The pipeline reads back only the status
and the creation day (the daily-limit and recent-topic queries); the other
persisted columns (script, duration_seconds, audience and region/safety flags,
generation_prompt, research_sources) are write-only in the modelled operations
and are elided. The content_type column is the literal fallback "technical":
the script object carries its type under the key content_type while
saveGeneratedContent reads the absent key contentType, so the fallback always
applies. -/
structure ContentItem where
  id : Nat
  createdDate : String
  content_type : String
  status : String
deriving DecidableEq

/-- The environment variables read by the generator constructor. -/
structure EnvVars where
  DAILY_CONTENT_LIMIT : Option Nat := none
  CONTENT_GENERATION_ENABLED : Option String := none
  AUTO_PUBLISH_ENABLED : Option String := none
  TECHNICAL_REVIEW_REQUIRED : Option String := none
deriving DecidableEq

/-- The settings record assembled by the generator constructor. -/
structure GenSettings where
  daily_content_limit : Nat
  content_generation_enabled : Bool
  auto_publish_enabled : Bool
  technical_review_required : Bool
  min_consistency_score : Int
deriving DecidableEq

/-- Build the settings from the environment, as the constructor does. The
boolean settings are the strict string comparison with "true"; the daily limit
is parseInt with fallback 3, and a parsed 0 is falsy in JavaScript so the
fallback applies to it as well. -/
def mkSettings (e : EnvVars) : GenSettings :=
  { daily_content_limit :=
      match e.DAILY_CONTENT_LIMIT with
      | some n => if n = 0 then 3 else n
      | none => 3
  , content_generation_enabled := e.CONTENT_GENERATION_ENABLED == some "true"
  , auto_publish_enabled := e.AUTO_PUBLISH_ENABLED == some "true"
  , technical_review_required := e.TECHNICAL_REVIEW_REQUIRED == some "true"
  , min_consistency_score := 90 }

/-- checkDailyLimits: count of content_calendar rows created today whose status
is not cancelled and not failed. -/
def checkDailyLimits (db : List ContentItem) (today : String) : Nat :=
  (db.filter (fun c =>
    c.createdDate == today && !(c.status == "cancelled") && !(c.status == "failed"))).length

/-- One row of the day-of-week content strategy table. -/
structure DayStrategy where
  type : String
  difficulty : Nat
  canadian_focus : Bool
deriving DecidableEq

/-- The contentStrategy table of the constructor; an unrecognised day name
falls back to the monday entry, as in planDailyContent. -/
def contentStrategy : String → DayStrategy
  | "monday" => { type := "technical", difficulty := 3, canadian_focus := true }
  | "tuesday" => { type := "safety", difficulty := 2, canadian_focus := true }
  | "wednesday" => { type := "customer_service", difficulty := 2, canadian_focus := false }
  | "thursday" => { type := "industry_update", difficulty := 4, canadian_focus := true }
  | "friday" => { type := "technical", difficulty := 3, canadian_focus := false }
  | "saturday" => { type := "customer_service", difficulty := 2, canadian_focus := false }
  | "sunday" => { type := "wellness", difficulty := 1, canadian_focus := false }
  | _ => { type := "technical", difficulty := 3, canadian_focus := true }

/-- Caller options of generateDailyContent. priority_topics and avoid_topics
are elided: they default to empty lists and are only interpolated into prompt
text. generate_audio models the check options.generate_audio not strictly
equal to false. -/
structure GenOptions where
  force_content_type : Option String := none
  force_difficulty : Option Nat := none
  canadian_focus : Option Bool := none
  duration : Option Nat := none
  generate_audio : Bool := true
deriving DecidableEq

/-- The content plan assembled by planDailyContent. recent_topics is elided:
it is only interpolated into the topic-selection prompt and never branches. -/
structure ContentPlan where
  content_type : String
  difficulty_level : Nat
  canadian_focus : Bool
  duration_minutes : Nat
deriving DecidableEq

/-- planDailyContent: the day strategy overridden by caller options. The
JavaScript override operator treats empty strings and zero as absent; the
model uses option-valued overrides. -/
def planDailyContent (opts : GenOptions) (dayName : String) : ContentPlan :=
  let base := contentStrategy dayName
  { content_type := opts.force_content_type.getD base.type
  , difficulty_level := opts.force_difficulty.getD base.difficulty
  , canadian_focus := opts.canadian_focus.getD base.canadian_focus
  , duration_minutes := opts.duration.getD 10 }

/-- A structured research result, restricted to the fields conductResearch and
selectOptimalTopic branch on. -/
structure Research where
  urgency_level : String
  content_angles : List String
deriving DecidableEq

/-- Aggregated research of conductResearch. -/
structure ResearchData where
  results : List Research
  urgent_topics : List String
  sources : Nat
deriving DecidableEq

/-- The four fixed research queries of conductResearch. -/
def researchQueries (contentType : String) : List String :=
  ["HVAC industry news Canada latest",
   "HVAC " ++ contentType ++ " trending topics",
   "HVAC safety alerts equipment recalls",
   "Canadian HVAC regulation updates"]

/-- conductResearch: one researchTopic outcome per query; a failing query is
logged and skipped, the rest proceed. Urgent topics are the content angles of
results with emergency or high urgency. The outer catch of the source is
unreachable once every per-query failure is caught, so the empty fallback with
fallback_used is not modelled. -/
def conductResearch (plan : ContentPlan) (outcomes : List (Except String Research)) :
    ResearchData :=
  let results := ((researchQueries plan.content_type).zip outcomes).filterMap
    (fun qo => match qo.2 with | .ok r => some r | .error _ => none)
  let urgent := (results.filter
    (fun r => r.urgency_level == "emergency" || r.urgency_level == "high")).flatMap
    (fun r => r.content_angles)
  { results := results, urgent_topics := urgent, sources := results.length }

/-- The single-quote character, written by code point to keep the source plain. -/
def singleQuoteChar : Char := Char.ofNat 39

/-- A double or single quote. -/
def isQuoteChar (c : Char) : Bool := c = '"' || c = singleQuoteChar

/-- The cleanup applied to the AI-selected topic: trim, then strip one leading
and one trailing quote character. -/
def cleanTopic (s : String) : String :=
  let cs := s.trim.toList
  let cs1 :=
    match cs with
    | [] => []
    | c :: rest => if isQuoteChar c then rest else c :: rest
  let cs2 :=
    match cs1.getLast? with
    | some c => if isQuoteChar c then cs1.dropLast else cs1
    | none => cs1
  String.mk cs2

/-- The hard-coded fallback topic lists keyed by content type; an unknown type
uses the technical list. -/
def fallbackTopics (contentType : String) : List String :=
  match contentType with
  | "technical" =>
      ["HVAC System Diagnostics Made Simple",
       "Understanding Heat Pump Efficiency Ratings",
       "Refrigerant Charging Best Practices"]
  | "safety" =>
      ["Electrical Safety in HVAC Work",
       "Confined Space Safety for HVAC Technicians",
       "Chemical Safety with HVAC Cleaning Products"]
  | "customer_service" =>
      ["Explaining HVAC Repairs to Customers",
       "Managing Customer Expectations During Repairs",
       "Building Trust Through Professional Service"]
  | "industry_update" =>
      ["Latest HVAC Technology Trends",
       "New Energy Efficiency Standards",
       "HVAC Market Changes and Opportunities"]
  | "wellness" =>
      ["Managing Stress as an HVAC Professional",
       "Work-Life Balance in the HVAC Industry",
       "Building a Successful HVAC Career"]
  | _ =>
      ["HVAC System Diagnostics Made Simple",
       "Understanding Heat Pump Efficiency Ratings",
       "Refrigerant Charging Best Practices"]

/-- selectOptimalTopic: an urgent research topic wins outright; otherwise the
generative service picks from research with content angles (a failure of that
call falls back to the first available angle); otherwise a pseudo-random pick
from the fallback list, with randPick standing for the Math.random draw. -/
def selectOptimalTopic (plan : ContentPlan) (research : ResearchData)
    (topicPick : Except String String) (randPick : Nat) : String :=
  match research.urgent_topics with
  | t :: _ => t
  | [] =>
    let relevantResearch := research.results.filter (fun r => !r.content_angles.isEmpty)
    if relevantResearch.isEmpty then
      let topicOptions := fallbackTopics plan.content_type
      topicOptions.getD (randPick % topicOptions.length) "HVAC System Diagnostics Made Simple"
    else
      match topicPick with
      | .ok t => cleanTopic t
      | .error _ =>
        ((relevantResearch.headD { urgency_level := "", content_angles := [] }).content_angles).headD ""

/-- The script object built by generateHVACScript in
backend/src/ai/anthropic-client.js. The title/description regex extraction and
the field derivation from the script parameters happen inside the external
call boundary and are absorbed into the supplied outcome value. -/
structure ScriptContent where
  script : String
  title : String
  description : String
  duration : Nat
  difficulty_level : Nat
  canadian_specific : Bool
  safety_related : Bool
  target_audience : String
  content_type : String
deriving DecidableEq

/-- The result of generateConsistentContent as consumed by the generator:
the script object plus the consistency metrics. generation_params and
generated_at are elided (write-only metadata). -/
structure ContentResult where
  content : ScriptContent
  consistency_score : Int
  meets_threshold : Bool
deriving DecidableEq

/-- generateConsistentContent of the character engine for the script content
type: a script generation failure propagates (rethrown by its catch); on
success the consistency evaluation runs and the threshold flag is the
comparison with the module threshold 95. -/
def generateConsistentContent (scriptGen : Except String ScriptContent)
    (consResp : ConsResponse) : Except String ContentResult :=
  match scriptGen with
  | .error e => .error e
  | .ok c =>
    let score := evaluateConsistency consResp
    .ok { content := c
        , consistency_score := score
        , meets_threshold := decide (consistencyThreshold ≤ score) }

/-- Parsed quality-check JSON: the eight criteria, the overall score and the
approval flag the prompt requests. concerns, improvements and review_notes are
elided (never branched on). -/
structure QCParsed where
  technical_accuracy : Int
  educational_value : Int
  safety_compliance : Int
  character_consistency : Int
  canadian_relevance : Int
  clarity_structure : Int
  practical_application : Int
  engagement_factor : Int
  overall_score : Int
  approved : Bool
deriving DecidableEq

/-- The quality check returned by performQualityCheck: either the parsed model
JSON verbatim, or the conservative fallback object. -/
inductive QualityCheck where
  | parsed (qc : QCParsed)
  | fallback (overall_score : Int) (approved : Bool) (manual_review_required : Bool)
deriving DecidableEq

/-- The approval flag of a quality check. -/
def QualityCheck.approved : QualityCheck → Bool
  | .parsed qc => qc.approved
  | .fallback _ a _ => a

/-- performQualityCheck: a parsed response is returned verbatim — the approval
criteria are stated in the prompt but not checked by code. Every failure (the
call throwing, no JSON match, JSON.parse throwing) lands in the catch, which
returns overall 75 and approves exactly when technical_review_required is off. -/
def performQualityCheck (s : GenSettings) (resp : Option QCParsed) : QualityCheck :=
  match resp with
  | some qc => .parsed qc
  | none => .fallback 75 (if s.technical_review_required then false else true) true

/-- Voice synthesis output, restricted to identifying fields. -/
structure AudioFile where
  filename : String
  estimated_duration : Nat
deriving DecidableEq

/-- generateVoiceAudio (modelled as generateVoiceAudioStep since the source
name is reserved here): a synthesis failure is caught and yields null. The
bounded excerpt handed to the synthesiser (extractAudioContent) does not
influence the outcome value and is elided. -/
def generateVoiceAudioStep (outcome : Except String AudioFile) : Option AudioFile :=
  match outcome with
  | .ok a => some a
  | .error _ => none

/-- Per-platform social adaptations, one text per configured platform. -/
structure SocialContent where
  youtube_title : String
  youtube_description : String
  linkedin_post : String
  facebook_post : String
deriving DecidableEq

/-- generateSocialContent: on failure of the adaptation call, the minimal
templated fallback built from the script title and description. -/
def generateSocialContent (c : ScriptContent) (outcome : Except String SocialContent) :
    SocialContent :=
  match outcome with
  | .ok s => s
  | .error _ =>
    { youtube_title := c.title
    , youtube_description := c.description
    , linkedin_post := "New HVAC education content: " ++ c.title
    , facebook_post := "HVAC family, check out our latest video: " ++ c.title }

/-- A fresh serial id for a created row. -/
def freshId (db : List ContentItem) : Nat :=
  db.foldl (fun m c => max m (c.id + 1)) 0

/-- The content_calendar row created by saveGeneratedContent: status ready when
the quality check approved and review_required otherwise. -/
def persistedItem (db : List ContentItem) (today : String) (qc : QualityCheck) : ContentItem :=
  { id := freshId db
  , createdDate := today
  , content_type := "technical"
  , status := if qc.approved then "ready" else "review_required" }

/-- saveGeneratedContent: create the content_calendar row; a persistence
failure propagates. saveOk models whether the database create succeeds. -/
def saveGeneratedContent (db : List ContentItem) (today : String) (qc : QualityCheck)
    (saveOk : Bool) : Except String ContentItem × List ContentItem :=
  if saveOk then (.ok (persistedItem db today qc), db ++ [persistedItem db today qc])
  else (.error "database create failed", db)

/-- Result of an auto-publish attempt. -/
structure PublishOutcome where
  published : Bool
deriving DecidableEq

/-- autoPublishContent: re-checks the auto-publish setting, then updates the
row status to published; an update failure is caught and reported as a
non-published outcome without failing the run. -/
def autoPublishContent (s : GenSettings) (db : List ContentItem) (item : ContentItem)
    (publishOk : Bool) : Option PublishOutcome × List ContentItem :=
  if !s.auto_publish_enabled then (none, db)
  else if publishOk then
    (some { published := true },
     db.map (fun c => if c.id = item.id then { c with status := "published" } else c))
  else (some { published := false }, db)

/-- The structured success payload of a completed run. generation_time and
research_sources are elided timing/count metadata. -/
structure RunSuccess where
  content : ContentItem
  quality_check : QualityCheck
  audio_result : Option AudioFile
  social_content : SocialContent
  publish_result : Option PublishOutcome
deriving DecidableEq

/-- The structured result of a run: the daily-limit short-circuit object
(success false with its reason and counts) or the completed object
(success true). -/
inductive GenResult where
  | limitReached (reason : String) (existing_count limit : Nat)
  | completed (r : RunSuccess)
deriving DecidableEq

/-- The success flag of a structured run result. -/
def GenResult.success : GenResult → Bool
  | .limitReached .. => false
  | .completed _ => true

/-- Outcomes of all external calls one run can make, in pipeline order.
kbFails models the knowledge-base lookup throwing at the database layer
(caught by gatherKnowledgeContext). -/
structure PipelineEnv where
  dayName : String
  research : List (Except String Research)
  topicPick : Except String String
  randPick : Nat
  kbFails : Bool
  kbDb : List KnowledgeEntry
  kbRankings : List (Option (List Nat))
  scriptGen : Except String ScriptContent
  consistency : ConsResponse
  quality : Option QCParsed
  audioGen : Except String AudioFile
  socialGen : Except String SocialContent
  saveOk : Bool
  publishOk : Bool

/-- The empty knowledge context used when gathering fails. -/
def emptyKnowledgeContext : KnowledgeContext :=
  { primary := [], safety := [], canadian_specific := [], supplementary := [] }

/-- gatherKnowledgeContext: the knowledge-base call with its failure degraded
to empty sets. -/
def gatherKnowledgeContext (env : PipelineEnv) (topic : String) (plan : ContentPlan) :
    KnowledgeContext :=
  if env.kbFails then emptyKnowledgeContext
  else (getKnowledgeForContent env.kbDb env.kbRankings topic plan.content_type
          plan.difficulty_level).1

/-- generateDailyContent: the full run. Returns the structured result or the
rethrown error, paired with the final state of the content_calendar table.
The disabled guard throws before any other work; the daily-limit guard returns
the structured short-circuit; a script-generation failure and a persistence
failure are rethrown by the outer catch (after failure logging, which is pure
logging and elided); every other external failure degrades to its documented
fallback. -/
def generateDailyContent (s : GenSettings) (opts : GenOptions) (env : PipelineEnv)
    (db : List ContentItem) (today : String) :
    Except String GenResult × List ContentItem :=
  if s.content_generation_enabled = false then
    (.error "Autonomous content generation is disabled", db)
  else
    let count := checkDailyLimits db today
    if s.daily_content_limit ≤ count then
      (.ok (.limitReached "Daily content limit reached" count s.daily_content_limit), db)
    else
      let plan := planDailyContent opts env.dayName
      let research := conductResearch plan env.research
      let topic := selectOptimalTopic plan research env.topicPick env.randPick
      let _knowledge := gatherKnowledgeContext env topic plan
      match generateConsistentContent env.scriptGen env.consistency with
      | .error e => (.error e, db)
      | .ok contentResult =>
        let qc := performQualityCheck s env.quality
        let audioOut := if opts.generate_audio then generateVoiceAudioStep env.audioGen else none
        let social := generateSocialContent contentResult.content env.socialGen
        match saveGeneratedContent db today qc env.saveOk with
        | (.error e, db1) => (.error e, db1)
        | (.ok saved, db1) =>
          let published :=
            if s.auto_publish_enabled && qc.approved then
              autoPublishContent s db1 saved env.publishOk
            else (none, db1)
          (.ok (.completed
            { content := saved
            , quality_check := qc
            , audio_result := audioOut
            , social_content := social
            , publish_result := published.1 }), published.2)

/-! ## Scheduler (backend/src/services/scheduler.js) -/

/-- handleDailyContentGeneration: checks the quota guard itself and skips
generation when the limit is met; otherwise runs generateDailyContent with
audio enabled. Every outcome — success, a structured failure (rethrown as an
error inside the handler) and a thrown error — is caught and logged, and the
handler returns undefined (none) in all cases. -/
def handleDailyContentGeneration (s : GenSettings) (env : PipelineEnv)
    (db : List ContentItem) (today : String) : Option GenResult × List ContentItem :=
  if s.daily_content_limit ≤ checkDailyLimits db today then (none, db)
  else
    match generateDailyContent s { generate_audio := true } env db today with
    | (.error _, db1) => (none, db1)
    | (.ok _, db1) => (none, db1)

/-- The daily_content branch of triggerJob: runs the handler immediately and
returns its result (undefined) directly; the other five job branches dispatch
to handlers outside the scope of the modelled claims and are elided. -/
def triggerDailyContent (s : GenSettings) (env : PipelineEnv) (db : List ContentItem)
    (today : String) : Except String (Option GenResult) × List ContentItem :=
  let h := handleDailyContentGeneration s env db today
  (.ok h.1, h.2)

/-- True exactly when a trigger result carries a structured daily-limit-reached
run result (spec-side predicate used to state the idempotence claim). -/
def resultIsDailyLimitReached : Except String (Option GenResult) → Bool
  | .ok (some (.limitReached ..)) => true
  | _ => false

/-! ## Abbreviations and concrete values used by the theorems below -/

/-- Abbreviation for the auto-publish stage of a successfully persisted run,
used to state the run-shape equations. -/
def publishStep (s : GenSettings) (env : PipelineEnv) (db : List ContentItem)
    (today : String) : Option PublishOutcome × List ContentItem :=
  let qc := performQualityCheck s env.quality
  let saved := persistedItem db today qc
  if s.auto_publish_enabled && qc.approved then
    autoPublishContent s (db ++ [saved]) saved env.publishOk
  else (none, db ++ [saved])

/-- Settings of a generator whose environment enables content generation and
leaves every other variable unset. -/
def enabledSettings : GenSettings :=
  mkSettings { CONTENT_GENERATION_ENABLED := some "true" }

/-- A concrete script object, as a script-generation call could return it. -/
def sampleScript : ScriptContent :=
  { script := "Welcome back, HVAC family."
  , title := "Refrigerant Charging Best Practices"
  , description := "Educational HVAC content"
  , duration := 10
  , difficulty_level := 3
  , canadian_specific := true
  , safety_related := false
  , target_audience := "hvac_technicians"
  , content_type := "technical" }

/-- A parsed quality check that approves with every criterion high. -/
def passingQC : QCParsed :=
  { technical_accuracy := 95, educational_value := 90, safety_compliance := 95
  , character_consistency := 92, canadian_relevance := 88, clarity_structure := 90
  , practical_application := 91, engagement_factor := 87, overall_score := 91
  , approved := true }

/-- A parsed quality check the model did not approve. -/
def rejectingQC : QCParsed :=
  { technical_accuracy := 80, educational_value := 75, safety_compliance := 82
  , character_consistency := 70, canadian_relevance := 68, clarity_structure := 74
  , practical_application := 77, engagement_factor := 66, overall_score := 74
  , approved := false }

/-- A parsed quality check that approves although every criterion is far below
every approval threshold stated in the prompt. -/
def badQC : QCParsed :=
  { technical_accuracy := 10, educational_value := 10, safety_compliance := 10
  , character_consistency := 10, canadian_relevance := 10, clarity_structure := 10
  , practical_application := 10, engagement_factor := 10, overall_score := 10
  , approved := true }

/-- A concrete environment in which every external call succeeds where that
matters and the pipeline reaches persistence. -/
def sampleEnv : PipelineEnv :=
  { dayName := "monday"
  , research := []
  , topicPick := .error "topic selection unavailable"
  , randPick := 0
  , kbFails := false
  , kbDb := []
  , kbRankings := []
  , scriptGen := .ok sampleScript
  , consistency := .noJsonMatch
  , quality := some passingQC
  , audioGen := .error "voice synthesis unavailable"
  , socialGen := .error "social adaptation unavailable"
  , saveOk := true
  , publishOk := true }

/-- The sample environment with the script-generation call failing. -/
def envScriptFails : PipelineEnv :=
  { sampleEnv with scriptGen := .error "script generation failed" }

/-- The sample environment with a run whose quality check rejects. -/
def envRejected : PipelineEnv :=
  { sampleEnv with quality := some rejectingQC }

/-- A content_calendar table holding three non-terminal rows created on
2025-01-06, meeting the default daily limit of 3. -/
def fullDayDb : List ContentItem :=
  [ { id := 1, createdDate := "2025-01-06", content_type := "technical", status := "ready" }
  , { id := 2, createdDate := "2025-01-06", content_type := "technical", status := "published" }
  , { id := 3, createdDate := "2025-01-06", content_type := "technical", status := "review_required" } ]

/-- Consistency scores whose overall score lies above the documented range. -/
def overScores : ConsScores :=
  { tone_empathy := 8, safety_focus := 9, teaching_style := 8, language_use := 7
  , technical_accuracy := 9, brand_integration := 8, character_consistency := 8
  , authenticity := 8, overall_score := 150 }

/-- A knowledge entry as stored before re-verification. -/
def sampleEntry : KnowledgeEntry :=
  { id := 7, topic := "superheat basics", category := "refrigeration"
  , subcategory := "superheat", content := "Measure superheat at the suction line."
  , canadian_specific := true, safety_related := false, difficulty_level := 2
  , verified := false, tags := [], keywords := [], createdAt := 0 }

/-- A verification response claiming verified although its accuracy score is
below 85. -/
def lowScoreVerifiedResponse : VerifyResponse :=
  .parsed { accuracy_score := 60, verified := true, requires_manual_review := false }

/-- The entry produced by the addKnowledge witness computation. -/
def addedEntry : KnowledgeEntry :=
  { id := 9, topic := "superheat basics", category := "refrigeration"
  , subcategory := "superheat", content := "Measure superheat at the suction line."
  , canadian_specific := true, safety_related := false, difficulty_level := 2
  , verified := true, tags := [], keywords := [], createdAt := 4 }

/-- Spec-side predicate: the run result handed to the caller is a structured
result rather than a rethrown error. -/
def isStructuredResult : Except String GenResult → Bool
  | .ok _ => true
  | .error _ => false

/-- Spec-side predicate: a consistency response whose parsed overall score, if
any, lies within the documented 0 to 100 range. -/
def consRespBounded : ConsResponse → Bool
  | .parsed sc => decide (0 ≤ sc.overall_score) && decide (sc.overall_score ≤ 100)
  | .noJsonMatch => true
  | .threw => true

/-- Spec-side predicate: the approval flag carried by the quality response
itself (false when there is no parsed response). -/
def respApprovedFlag : Option QCParsed → Bool
  | some qc => qc.approved
  | none => false

/-- The content row persisted by the rejected-quality sample run. -/
def rejectedRunContent : ContentItem :=
  { id := 0, createdDate := "2025-01-06", content_type := "technical"
  , status := "review_required" }

/-- The full structured payload of the rejected-quality sample run. -/
def rejectedRun : RunSuccess :=
  { content := rejectedRunContent
  , quality_check := .parsed rejectingQC
  , audio_result := none
  , social_content := generateSocialContent sampleScript (.error "social adaptation unavailable")
  , publish_result := none }

/-! ## Run-shape lemmas for generateDailyContent -/

/-- A disabled generator throws before any other work. -/
theorem run_disabled_eq (s : GenSettings) (opts : GenOptions) (env : PipelineEnv)
    (db : List ContentItem) (today : String)
    (hdis : s.content_generation_enabled = false) :
    generateDailyContent s opts env db today =
      (.error "Autonomous content generation is disabled", db) := by
  unfold generateDailyContent
  rw [hdis]
  simp

/-- When the quota is met the run returns the structured short-circuit and the
table is untouched. -/
theorem run_limit_eq (s : GenSettings) (opts : GenOptions) (env : PipelineEnv)
    (db : List ContentItem) (today : String)
    (hen : s.content_generation_enabled = true)
    (hlim : s.daily_content_limit ≤ checkDailyLimits db today) :
    generateDailyContent s opts env db today =
      (.ok (.limitReached "Daily content limit reached" (checkDailyLimits db today)
        s.daily_content_limit), db) := by
  unfold generateDailyContent
  rw [hen]
  simp [hlim]

/-- A script-generation failure is rethrown and nothing is persisted. -/
theorem run_scriptfail_eq (s : GenSettings) (opts : GenOptions) (env : PipelineEnv)
    (db : List ContentItem) (today : String) (e : String)
    (hen : s.content_generation_enabled = true)
    (hlim : ¬ s.daily_content_limit ≤ checkDailyLimits db today)
    (hsg : env.scriptGen = .error e) :
    generateDailyContent s opts env db today = (.error e, db) := by
  unfold generateDailyContent generateConsistentContent
  rw [hen, hsg]
  simp [hlim]

/-- A persistence failure is rethrown and nothing is persisted. -/
theorem run_savefail_eq (s : GenSettings) (opts : GenOptions) (env : PipelineEnv)
    (db : List ContentItem) (today : String) (c : ScriptContent)
    (hen : s.content_generation_enabled = true)
    (hlim : ¬ s.daily_content_limit ≤ checkDailyLimits db today)
    (hsg : env.scriptGen = .ok c)
    (hsave : env.saveOk = false) :
    generateDailyContent s opts env db today = (.error "database create failed", db) := by
  unfold generateDailyContent generateConsistentContent saveGeneratedContent
  rw [hen, hsg, hsave]
  simp [hlim]

/-- The completed-run equation: the persisted row, the quality check, the
optional audio, the social content and the publish step, in terms of the
supplied outcomes. -/
theorem run_completed_eq (s : GenSettings) (opts : GenOptions) (env : PipelineEnv)
    (db : List ContentItem) (today : String) (c : ScriptContent)
    (hen : s.content_generation_enabled = true)
    (hlim : ¬ s.daily_content_limit ≤ checkDailyLimits db today)
    (hsg : env.scriptGen = .ok c)
    (hsave : env.saveOk = true) :
    generateDailyContent s opts env db today =
      (.ok (.completed
        { content := persistedItem db today (performQualityCheck s env.quality)
        , quality_check := performQualityCheck s env.quality
        , audio_result :=
            if opts.generate_audio then generateVoiceAudioStep env.audioGen else none
        , social_content := generateSocialContent c env.socialGen
        , publish_result := (publishStep s env db today).1 }),
       (publishStep s env db today).2) := by
  unfold generateDailyContent generateConsistentContent saveGeneratedContent publishStep
  rw [hen, hsg, hsave]
  simp [hlim]

/-- The publish step appends exactly one row to the table, whatever the
publish outcome. -/
theorem publishStep_snd_length (s : GenSettings) (env : PipelineEnv)
    (db : List ContentItem) (today : String) :
    (publishStep s env db today).2.length = db.length + 1 := by
  unfold publishStep autoPublishContent
  rcases h1 : s.auto_publish_enabled with _ | _ <;>
    rcases h2 : (performQualityCheck s env.quality).approved with _ | _ <;>
      rcases h3 : env.publishOk with _ | _ <;>
        simp [h1, h2, h3]

/-! ## Deduplication lemmas -/

/-- Membership in the deduplicated list implies membership in the original. -/
theorem mem_of_mem_dedupById : ∀ (l : List KnowledgeEntry) (b : KnowledgeEntry),
    b ∈ dedupById l → b ∈ l
  | [], b, h => by simp [dedupById] at h
  | e :: rest, b, h => by
    rw [dedupById] at h
    rcases List.mem_cons.mp h with h1 | h2
    · exact h1 ▸ List.mem_cons_self _ _
    · exact List.mem_cons_of_mem _
        (List.mem_of_mem_filter (mem_of_mem_dedupById _ _ h2))
termination_by l => l.length
decreasing_by
  simp only [List.length_cons]
  exact Nat.lt_succ_of_le (List.length_filter_le _ _)

/-- The deduplicated list has pairwise-distinct ids. -/
theorem dedupById_pairwise : ∀ l : List KnowledgeEntry,
    (dedupById l).Pairwise (fun a b => a.id ≠ b.id)
  | [] => by simp [dedupById]
  | e :: rest => by
    rw [dedupById]
    refine List.Pairwise.cons ?_ (dedupById_pairwise (rest.filter (fun r => r.id ≠ e.id)))
    intro b hb
    have hbf := mem_of_mem_dedupById _ _ hb
    have hpb := List.of_mem_filter hbf
    exact fun he => (of_decide_eq_true hpb) he.symm
termination_by l => l.length
decreasing_by
  simp only [List.length_cons]
  exact Nat.lt_succ_of_le (List.length_filter_le _ _)

/-! ## Claim theorems -/

/-- C1: for any run of an enabled generator, when the count of content items
created the same day with status outside cancelled/failed has reached the
configured daily limit, generateDailyContent returns the structured
daily-limit-reached result with success false and leaves the table untouched —
the right-hand side mentions no external-call outcome, so no research,
generation or persistence work influences or is influenced by the run. -/
theorem claim1_daily_quota_short_circuit (s : GenSettings) (opts : GenOptions)
    (env : PipelineEnv) (db : List ContentItem) (today : String)
    (hen : s.content_generation_enabled = true)
    (hlim : s.daily_content_limit ≤ checkDailyLimits db today) :
    generateDailyContent s opts env db today =
      (.ok (.limitReached "Daily content limit reached" (checkDailyLimits db today)
        s.daily_content_limit), db)
    ∧ GenResult.success (.limitReached "Daily content limit reached"
        (checkDailyLimits db today) s.daily_content_limit) = false :=
  ⟨run_limit_eq s opts env db today hen hlim, rfl⟩

/-- Witness for C1 at a table holding three same-day non-terminal rows against
the default limit of 3. -/
theorem claim1_daily_quota_short_circuit_witness :
    enabledSettings.content_generation_enabled = true
    ∧ enabledSettings.daily_content_limit ≤ checkDailyLimits fullDayDb "2025-01-06"
    ∧ (generateDailyContent enabledSettings {} sampleEnv fullDayDb "2025-01-06" =
        (.ok (.limitReached "Daily content limit reached"
          (checkDailyLimits fullDayDb "2025-01-06") enabledSettings.daily_content_limit),
         fullDayDb)
       ∧ GenResult.success (.limitReached "Daily content limit reached"
          (checkDailyLimits fullDayDb "2025-01-06")
          enabledSettings.daily_content_limit) = false) :=
  ⟨rfl, by decide,
    claim1_daily_quota_short_circuit enabledSettings {} sampleEnv fullDayDb "2025-01-06"
      rfl (by decide)⟩

/-- C2 counterexample: with generation enabled and an environment whose
script-generation call fails, the caller receives the rethrown error, not a
structured result — refuting the claim that every combination of external-call
outcomes yields a structured result and never a thrown error. -/
theorem claim2_rethrow_counterexample :
    (generateDailyContent enabledSettings {} envScriptFails [] "2025-01-06").1 =
      .error "script generation failed"
    ∧ isStructuredResult
        (generateDailyContent enabledSettings {} envScriptFails [] "2025-01-06").1 = false :=
  ⟨rfl, rfl⟩

/-- C2 amended: the caller receives a structured result whenever generation is
enabled, the script-generation call succeeds and the persistence write
succeeds (covering both the quota short-circuit and the completed run, for
every outcome of the research, topic, knowledge, quality, audio, social and
publish calls); generation-disabled, script-generation failure and persistence
failure are instead rethrown to the caller. -/
theorem claim2_structured_result_amended (s : GenSettings) (opts : GenOptions)
    (env : PipelineEnv) (db : List ContentItem) (today : String) (c : ScriptContent)
    (hen : s.content_generation_enabled = true)
    (hsg : env.scriptGen = .ok c)
    (hsave : env.saveOk = true) :
    isStructuredResult (generateDailyContent s opts env db today).1 = true := by
  by_cases hlim : s.daily_content_limit ≤ checkDailyLimits db today
  · rw [run_limit_eq s opts env db today hen hlim]
    rfl
  · rw [run_completed_eq s opts env db today c hen hlim hsg hsave]
    rfl

/-- Witness for C2 amended at the sample environment. -/
theorem claim2_structured_result_amended_witness :
    enabledSettings.content_generation_enabled = true
    ∧ sampleEnv.scriptGen = .ok sampleScript
    ∧ sampleEnv.saveOk = true
    ∧ isStructuredResult
        (generateDailyContent enabledSettings {} sampleEnv [] "2025-01-06").1 = true :=
  ⟨rfl, rfl, rfl,
    claim2_structured_result_amended enabledSettings {} sampleEnv [] "2025-01-06"
      sampleScript rfl rfl rfl⟩

/-- C3 counterexample: performQualityCheck returns the parsed model JSON
verbatim, so a response that approves with every criterion far below every
threshold stated in the prompt yields approved true with technical accuracy
and character consistency at 10 — refuting the claim that approval implies the
score bounds. -/
theorem claim3_approval_unenforced_counterexample :
    (performQualityCheck enabledSettings (some badQC)).approved = true
    ∧ badQC.technical_accuracy = 10
    ∧ badQC.character_consistency = 10
    ∧ ¬ (85 ≤ badQC.technical_accuracy)
    ∧ ¬ (85 ≤ badQC.character_consistency)
    ∧ ¬ (70 ≤ badQC.engagement_factor) :=
  ⟨rfl, rfl, rfl, by decide, by decide, by decide⟩

/-- C3 amended: the code does not enforce the rubric bounds; the gate approves
exactly when the parsed response itself carries approved true, or when every
parse path failed and the technical-review-required setting is off (the
conservative fallback). -/
theorem claim3_approval_provenance_amended (s : GenSettings) (resp : Option QCParsed) :
    (performQualityCheck s resp).approved = true ↔
      (respApprovedFlag resp = true
        ∨ (resp = none ∧ s.technical_review_required = false)) := by
  cases resp with
  | some qc => simp [performQualityCheck, QualityCheck.approved, respApprovedFlag]
  | none =>
    cases htr : s.technical_review_required <;>
      simp [performQualityCheck, QualityCheck.approved, respApprovedFlag, htr]

/-- C4 counterexample: a run whose quality check rejects persists exactly one
row with status review_required — the status the claim calls reviewing does
not occur. -/
theorem claim4_review_required_counterexample :
    (generateDailyContent enabledSettings {} envRejected [] "2025-01-06").2 =
      [rejectedRunContent]
    ∧ rejectedRunContent.status = "review_required"
    ∧ "review_required" ≠ "reviewing" :=
  ⟨rfl, rfl, by decide⟩

/-- C4 amended: every completed run persists exactly one content row, with
status ready when the quality gate approved and review_required otherwise
(the status the spec calls reviewing), and persistence is the first durable
write: any run that does not complete (the disabled throw, the quota
short-circuit, a script-generation failure, a persistence failure) leaves the
table exactly as it was. -/
theorem claim4_persistence_amended (s : GenSettings) (opts : GenOptions)
    (env : PipelineEnv) (db : List ContentItem) (today : String) :
    (∀ r, (generateDailyContent s opts env db today).1 = .ok (.completed r) →
      ((generateDailyContent s opts env db today).2.length = db.length + 1
       ∧ r.content = persistedItem db today r.quality_check
       ∧ r.content.status =
           (if r.quality_check.approved then "ready" else "review_required")))
    ∧ ((∀ r, (generateDailyContent s opts env db today).1 ≠ .ok (.completed r)) →
        (generateDailyContent s opts env db today).2 = db) := by
  by_cases hen : s.content_generation_enabled = true
  · by_cases hlim : s.daily_content_limit ≤ checkDailyLimits db today
    · rw [run_limit_eq s opts env db today hen hlim]
      exact ⟨fun r hr => by simp at hr, fun _ => rfl⟩
    · cases hsg : env.scriptGen with
      | error e =>
        rw [run_scriptfail_eq s opts env db today e hen hlim hsg]
        exact ⟨fun r hr => by simp at hr, fun _ => rfl⟩
      | ok c =>
        cases hsv : env.saveOk with
        | false =>
          rw [run_savefail_eq s opts env db today c hen hlim hsg hsv]
          exact ⟨fun r hr => by simp at hr, fun _ => rfl⟩
        | true =>
          rw [run_completed_eq s opts env db today c hen hlim hsg hsv]
          constructor
          · intro r hr
            simp only [Except.ok.injEq, GenResult.completed.injEq] at hr
            subst hr
            exact ⟨publishStep_snd_length s env db today, rfl, rfl⟩
          · intro hall
            exact absurd rfl (hall _)
  · have hdis : s.content_generation_enabled = false := by
      cases hB : s.content_generation_enabled
      · rfl
      · exact absurd hB hen
    rw [run_disabled_eq s opts env db today hdis]
    exact ⟨fun r hr => by simp at hr, fun _ => rfl⟩

/-- Witness for C4 amended at the rejected-quality sample run. -/
theorem claim4_persistence_amended_witness :
    (generateDailyContent enabledSettings {} envRejected [] "2025-01-06").1 =
      .ok (.completed rejectedRun)
    ∧ ((generateDailyContent enabledSettings {} envRejected [] "2025-01-06").2.length =
        ([] : List ContentItem).length + 1
       ∧ rejectedRun.content = persistedItem [] "2025-01-06" rejectedRun.quality_check
       ∧ rejectedRun.content.status =
           (if rejectedRun.quality_check.approved then "ready" else "review_required")) :=
  ⟨rfl,
    (claim4_persistence_amended enabledSettings {} envRejected [] "2025-01-06").1
      rejectedRun rfl⟩

/-- C5 counterexample: the parsed overall score is returned without clamping,
so a response scoring 150 yields 150, outside 0 to 100; moreover a throw
(including a matched but unparsable JSON object) yields 70, not the documented
default 75. -/
theorem claim5_score_unclamped_counterexample :
    evaluateConsistency (.parsed overScores) = 150
    ∧ ¬ (evaluateConsistency (.parsed overScores) ≤ 100)
    ∧ evaluateConsistency .threw = 70
    ∧ (70 : Int) ≠ 75 :=
  ⟨rfl, by decide, rfl, by decide⟩

/-- C5 amended: evaluateConsistency never raises and returns 75 exactly on a
completion with no JSON-shaped substring; a throw (of the call or of the JSON
parse) returns 70; a parsed response returns its overall score verbatim, so
the result lies in 0 to 100 exactly when the parsed score does. -/
theorem claim5_consistency_default_amended (r : ConsResponse)
    (hb : consRespBounded r = true) :
    (0 ≤ evaluateConsistency r ∧ evaluateConsistency r ≤ 100)
    ∧ (r = .noJsonMatch → evaluateConsistency r = 75) := by
  cases r with
  | parsed sc =>
    simp only [consRespBounded, Bool.and_eq_true, decide_eq_true_eq] at hb
    exact ⟨hb, fun h => ConsResponse.noConfusion h⟩
  | noJsonMatch => exact ⟨⟨by decide, by decide⟩, fun _ => rfl⟩
  | threw => exact ⟨⟨by decide, by decide⟩, fun h => ConsResponse.noConfusion h⟩

/-- Witness for C5 amended at a completion with no JSON object. -/
theorem claim5_consistency_default_amended_witness :
    consRespBounded .noJsonMatch = true
    ∧ ((0 ≤ evaluateConsistency .noJsonMatch ∧ evaluateConsistency .noJsonMatch ≤ 100)
       ∧ (ConsResponse.noJsonMatch = .noJsonMatch →
           evaluateConsistency .noJsonMatch = 75)) :=
  ⟨rfl, claim5_consistency_default_amended .noJsonMatch rfl⟩

/-- C6 counterexample: the scheduled maintenance re-verification copies the
verified flag of the verification response without the accuracy comparison, so
a response claiming verified at accuracy 60 flips the stored entry to verified
although 60 is below 85 — refuting the invariant for that path. -/
theorem claim6_maintenance_breaks_invariant_counterexample :
    (maintenanceReverify sampleEntry lowScoreVerifiedResponse).verified = true
    ∧ (verifyKnowledgeAccuracy lowScoreVerifiedResponse).accuracy_score = 60
    ∧ ¬ (85 ≤ (verifyKnowledgeAccuracy lowScoreVerifiedResponse).accuracy_score) :=
  ⟨rfl, rfl, by decide⟩

/-- C6 amended: the invariant holds at creation — an entry created by
addKnowledge carries verified true exactly when the verification accuracy
score is at least 85, and the verification fallback reports verified false —
but the scheduled maintenance re-verification sets the flag from the response
itself, as the counterexample shows. -/
theorem claim6_add_knowledge_invariant_amended (freshKId createdAt : Nat)
    (d : KnowledgeData) (resp : VerifyResponse) (subcategory : String)
    (tags keywords : List String) (entry : KnowledgeEntry)
    (hok : addKnowledge freshKId createdAt d resp subcategory tags keywords = .ok entry) :
    (entry.verified = true ↔ 85 ≤ (verifyKnowledgeAccuracy resp).accuracy_score)
    ∧ (verifyKnowledgeAccuracy .failed).verified = false := by
  refine ⟨?_, rfl⟩
  unfold addKnowledge at hok
  split at hok
  · exact absurd hok (by simp)
  · simp only [Except.ok.injEq] at hok
    subst hok
    simp

/-- Witness for C6 amended at a concrete created entry. -/
theorem claim6_add_knowledge_invariant_amended_witness :
    addKnowledge 9 4
      { topic := "superheat basics", category := "refrigeration"
      , content := "Measure superheat at the suction line." }
      (.parsed { accuracy_score := 92, verified := true, requires_manual_review := false })
      "superheat" [] [] = .ok addedEntry
    ∧ ((addedEntry.verified = true ↔
        85 ≤ (verifyKnowledgeAccuracy
          (.parsed { accuracy_score := 92, verified := true
                   , requires_manual_review := false })).accuracy_score)
       ∧ (verifyKnowledgeAccuracy .failed).verified = false) :=
  ⟨rfl,
    claim6_add_knowledge_invariant_amended 9 4
      { topic := "superheat basics", category := "refrigeration"
      , content := "Measure superheat at the suction line." }
      (.parsed { accuracy_score := 92, verified := true, requires_manual_review := false })
      "superheat" [] [] addedEntry rfl⟩

/-- C7 counterexample: at a table that already meets the quota, two immediate
manual triggers of the daily job return undefined both times — not a
structured daily-limit-reached result — while creating zero new rows (the
daily-limit outcome is only logged inside the handler). -/
theorem claim7_trigger_returns_undefined_counterexample :
    resultIsDailyLimitReached
      (triggerDailyContent enabledSettings sampleEnv fullDayDb "2025-01-06").1 = false
    ∧ resultIsDailyLimitReached
        (triggerDailyContent enabledSettings sampleEnv
          (triggerDailyContent enabledSettings sampleEnv fullDayDb "2025-01-06").2
          "2025-01-06").1 = false
    ∧ (triggerDailyContent enabledSettings sampleEnv
        (triggerDailyContent enabledSettings sampleEnv fullDayDb "2025-01-06").2
        "2025-01-06").2 = fullDayDb :=
  ⟨rfl, rfl, rfl⟩

/-- C7 amended: two immediate triggers of the daily job against a quota-met
table each short-circuit on the handler quota guard, create zero new rows, and
each return undefined (the handler catches every outcome and returns nothing);
no structured daily-limit-reached result reaches the trigger caller. -/
theorem claim7_trigger_idempotent_amended (s : GenSettings) (env env2 : PipelineEnv)
    (db : List ContentItem) (today : String)
    (hlim : s.daily_content_limit ≤ checkDailyLimits db today) :
    triggerDailyContent s env db today = (.ok none, db)
    ∧ triggerDailyContent s env2 (triggerDailyContent s env db today).2 today =
        (.ok none, db) := by
  have h1 : triggerDailyContent s env db today = (.ok none, db) := by
    unfold triggerDailyContent handleDailyContentGeneration
    simp [hlim]
  refine ⟨h1, ?_⟩
  rw [h1]
  unfold triggerDailyContent handleDailyContentGeneration
  simp [hlim]

/-- Witness for C7 amended at the quota-met sample table. -/
theorem claim7_trigger_idempotent_amended_witness :
    enabledSettings.daily_content_limit ≤ checkDailyLimits fullDayDb "2025-01-06"
    ∧ (triggerDailyContent enabledSettings sampleEnv fullDayDb "2025-01-06" =
        (.ok none, fullDayDb)
       ∧ triggerDailyContent enabledSettings envScriptFails
           (triggerDailyContent enabledSettings sampleEnv fullDayDb "2025-01-06").2
           "2025-01-06" = (.ok none, fullDayDb)) :=
  ⟨by decide,
    claim7_trigger_idempotent_amended enabledSettings sampleEnv envScriptFails fullDayDb
      "2025-01-06" (by decide)⟩

/-- C8 counterexample: for safety content the related-safety search is skipped,
so only two search calls are made, refuting the claim that the four sets are
assembled from three separate search calls for every content type. -/
theorem claim8_two_search_calls_counterexample :
    (getKnowledgeForContent [] [] "superheat" "safety" 2).2.length = 2
    ∧ (2 : Nat) ≠ 3 :=
  ⟨rfl, by decide⟩

/-- C8 amended: getKnowledgeForContent returns four result sets within the
claimed bounds (indeed within 5, 3, 3 and 5), the combined pool is
deduplicated by entry id (primary and supplementary have pairwise-distinct
ids), and it performs three separate search calls except for safety content,
where the related-safety search is skipped and only two calls are made. -/
theorem claim8_bounded_dedup_amended (db : List KnowledgeEntry)
    (rankings : List (Option (List Nat))) (topic contentType : String)
    (difficultyLevel : Nat) :
    (getKnowledgeForContent db rankings topic contentType difficultyLevel).1.primary.length ≤ 10
    ∧ (getKnowledgeForContent db rankings topic contentType difficultyLevel).1.safety.length ≤ 5
    ∧ (getKnowledgeForContent db rankings topic contentType
        difficultyLevel).1.canadian_specific.length ≤ 5
    ∧ (getKnowledgeForContent db rankings topic contentType
        difficultyLevel).1.supplementary.length ≤ 10
    ∧ List.Pairwise (fun a b => a.id ≠ b.id)
        ((getKnowledgeForContent db rankings topic contentType difficultyLevel).1.primary
          ++ (getKnowledgeForContent db rankings topic contentType
                difficultyLevel).1.supplementary)
    ∧ (getKnowledgeForContent db rankings topic contentType difficultyLevel).2.length =
        (if contentType = "safety" then 2 else 3) := by
  refine ⟨?_, ?_, ?_, ?_, ?_, ?_⟩
  · simp only [getKnowledgeForContent]
    exact le_trans (List.length_take_le 5 _) (by norm_num)
  · simp only [getKnowledgeForContent]
    exact le_trans (List.length_take_le 3 _) (by norm_num)
  · simp only [getKnowledgeForContent]
    exact le_trans (List.length_take_le 3 _) (by norm_num)
  · simp only [getKnowledgeForContent]
    exact le_trans (List.length_take_le 5 _) (by norm_num)
  · simp only [getKnowledgeForContent]
    rw [← List.take_add]
    exact List.Pairwise.sublist (List.take_sublist _ _) (dedupById_pairwise _)
  · by_cases h : contentType = "safety"
    · subst h
      simp [getKnowledgeForContent]
    · simp [getKnowledgeForContent, h]

/-- C9 counterexample: a patch containing only a field outside the allow-list
is not silently dropped with success — updateCharacterSettings throws instead. -/
theorem claim9_unknown_only_patch_throws_counterexample :
    updateCharacterSettings defaultProfile [("unknown_trait", (5 : ℚ))] =
      .error "No valid updates provided" :=
  rfl

/-- C9 amended: updateCharacterSettings applies only allow-listed fields and
silently drops any other field — appending an unknown field never changes the
result — but when the patch retains no allow-listed field at all it throws
rather than succeeding. -/
theorem claim9_allowlist_amended (p : CharacterProfile) (patch : List (String × ℚ))
    (k : String) (v : ℚ)
    (hk : allowedCharacterUpdates.contains k = false) :
    updateCharacterSettings p (patch ++ [(k, v)]) = updateCharacterSettings p patch
    ∧ (updateCharacterSettings p patch = .error "No valid updates provided" ↔
        patch.filter (fun kv => allowedCharacterUpdates.contains kv.1) = []) := by
  have hmem : k ∉ allowedCharacterUpdates := by simpa using hk
  have hsing : List.filter (fun kv => allowedCharacterUpdates.contains kv.1)
      [((k : String), (v : ℚ))] = [] := by
    simp [List.filter_cons, hk, hmem]
  constructor
  · unfold updateCharacterSettings
    rw [List.filter_append, hsing, List.append_nil]
  · by_cases hv : patch.filter (fun kv => allowedCharacterUpdates.contains kv.1) = []
    · simp [updateCharacterSettings, hv]
    · simp [updateCharacterSettings, hv, List.isEmpty_iff]

/-- Witness for C9 amended at the default profile. -/
theorem claim9_allowlist_amended_witness :
    allowedCharacterUpdates.contains "unknown_trait" = false
    ∧ (updateCharacterSettings defaultProfile
        ([("empathy_level", (9 : ℚ))] ++ [("unknown_trait", (1 : ℚ))]) =
        updateCharacterSettings defaultProfile [("empathy_level", (9 : ℚ))]
       ∧ (updateCharacterSettings defaultProfile [("empathy_level", (9 : ℚ))] =
            .error "No valid updates provided" ↔
          ([("empathy_level", (9 : ℚ))]).filter
            (fun kv => allowedCharacterUpdates.contains kv.1) = [])) :=
  ⟨rfl,
    claim9_allowlist_amended defaultProfile [("empathy_level", (9 : ℚ))]
      "unknown_trait" 1 rfl⟩

/-- C10: when the content-generation-enabled setting is false,
generateDailyContent throws before the quota check or any other work (the
error and the untouched table are independent of every other input), and the
setting derived from the environment is true exactly when the
CONTENT_GENERATION_ENABLED variable is the string true. -/
theorem claim10_disabled_throws (e : EnvVars) (opts : GenOptions) (env : PipelineEnv)
    (db : List ContentItem) (today : String)
    (hdis : (mkSettings e).content_generation_enabled = false) :
    generateDailyContent (mkSettings e) opts env db today =
      (.error "Autonomous content generation is disabled", db)
    ∧ ((mkSettings e).content_generation_enabled = true ↔
        e.CONTENT_GENERATION_ENABLED = some "true") := by
  refine ⟨run_disabled_eq _ opts env db today hdis, ?_⟩
  simp [mkSettings]

/-- Witness for C10 with the variable unset. -/
theorem claim10_disabled_throws_witness :
    (mkSettings {}).content_generation_enabled = false
    ∧ (generateDailyContent (mkSettings {}) {} sampleEnv fullDayDb "2025-01-06" =
        (.error "Autonomous content generation is disabled", fullDayDb)
       ∧ ((mkSettings {}).content_generation_enabled = true ↔
           ({} : EnvVars).CONTENT_GENERATION_ENABLED = some "true")) :=
  ⟨rfl, claim10_disabled_throws {} {} sampleEnv fullDayDb "2025-01-06" rfl⟩

end Lark
